import Mathlib

/-
  Verification development for the InfiniteCanvas camera/viewport controller
  (src/frontend/components/block/InfiniteCanvas/InfiniteCanvas.tsx).

  The controller is shallowly embedded: all numeric quantities are modelled as
  rationals (the source operates on JS doubles, but every operation used here
  is +, -, *, /, min, max, abs and comparisons on small decimal constants, so
  rational arithmetic is exact), refs become fields of an explicit state
  record, and each GSAP Observer callback / React handler becomes a state
  transition function.  The GSAP smoothing primitive (quickTo / gsap.to) is
  modelled at convergence: whenever the source redirects an animation target,
  the model sets the tracked value to that target, which is the value the
  animation converges to.
-/

set_option linter.unusedVariables false

namespace InfiniteCanvas

/-! ### Constants (InfiniteCanvas.tsx lines 27-77) -/

def CANVAS_ZOOM_DEFAULT : ℚ := 1
def CANVAS_ZOOM_MAX : ℚ := 3
def CANVAS_ZOOM_MIN : ℚ := 7/10
def CANVAS_ZOOM_INTRO : ℚ := 2/5
def CANVAS_ZOOM_DEFAULT_MOBILE : ℚ := 1
def CANVAS_ZOOM_MAX_MOBILE : ℚ := 3/2
def CANVAS_ZOOM_MIN_MOBILE : ℚ := 7/10
def CANVAS_ZOOM_INTRO_MOBILE : ℚ := 1/2
def INTERMEDIATE_CANVAS_ZOOM : ℚ := 3/2
def FIRST_ZOOM_OUT_THRESHOLD : ℚ := 500
def SECOND_ZOOM_OUT_THRESHOLD : ℚ := 2000
def ACTIVE_TILE_CLEAR_THRESHOLD : ℚ := 200
def MIN_PROJECTS_FOR_CANVAS : Nat := 100
def PAN_SENSITIVITY : ℚ := 1
def DRAG_THRESHOLD : ℚ := 1

/-- gsap.utils.clamp(lo, hi, v). -/
def clampQ (lo hi v : ℚ) : ℚ := min hi (max lo v)

/-- panBoundsRef.current : the rectangle of permissible worldOffset values. -/
structure PanBounds where
  minX : ℚ
  maxX : ℚ
  minY : ℚ
  maxY : ℚ
deriving Repr, DecidableEq

/-- The mutable refs of the InfiniteCanvas component, gathered into one
    record.  `worldOffsetX/Y` mirror worldOffsetRef, `incrX/Y` mirror
    incrXRef/incrYRef (the quickTo animation targets), and the remaining
    fields mirror the ref of the same name.  `isMobileViewport` stands for
    the repeatedly computed `window viewport width <= 768` test, constant for
    a given browsing session in this model. -/
structure CanvasState where
  scale : ℚ
  moveSinceZoom : ℚ
  zoomStage : Nat
  worldOffsetX : ℚ
  worldOffsetY : ℚ
  incrX : ℚ
  incrY : ℚ
  activeTile : Option Nat
  moveSinceActive : ℚ
  bounds : PanBounds
  canvasW : ℚ
  canvasH : ℚ
  viewportW : ℚ
  viewportH : ℚ
  isDragging : Bool
  dragDistance : ℚ
  zoomBeforeDrag : ℚ
  isIntroAnimating : Bool
  isPanning : Bool
  isMobileViewport : Bool
deriving Repr, DecidableEq

/-! ### Pan bounds (recalcPanBounds, lines 422-494) -/

/-- The bounds formula of recalcPanBounds (lines 452-468): symmetric around 0
    horizontally and around the vertical centring offset, expanded by
    PAN_EXPANSION_FACTOR = CANVAS_ZOOM_MAX.  Note that the formula does not
    depend on the current scale. -/
def panBoundsFormula (canvasW canvasH viewportW viewportH : ℚ) : PanBounds :=
  let edgePadding : ℚ := 120
  let PAN_EXPANSION_FACTOR : ℚ := CANVAS_ZOOM_MAX
  let overflowX := max 0 (canvasW - viewportW)
  let baseHalfX := overflowX / 2 + edgePadding
  let halfX := baseHalfX * PAN_EXPANSION_FACTOR
  let centreY := (viewportH - canvasH) / 2
  let overflowY := max 0 (canvasH - viewportH)
  let baseHalfY := overflowY / 2 + edgePadding
  let halfY := baseHalfY * PAN_EXPANSION_FACTOR
  ⟨-halfX, halfX, centreY - halfY, centreY + halfY⟩

/-- The pan bounds the component has in effect at a given zoom level.  In
    this code the bounds do not depend on the zoom at all (recalcPanBounds
    never reads canvasScaleRef), so the zoom argument is ignored; this
    definition is what "panBounds computed at scale z" denotes for this
    component. -/
def panBoundsAtScale (canvasW canvasH viewportW viewportH : ℚ) (zoom : ℚ) : PanBounds :=
  panBoundsFormula canvasW canvasH viewportW viewportH

/-- recalcPanBounds (lines 422-494).  The measured sizes
    (container scrollWidth/Height, wrapper rect) are inputs. -/
def recalcPanBounds (s : CanvasState) (canvasW canvasH viewportW viewportH : ℚ) :
    CanvasState :=
  let b := panBoundsFormula canvasW canvasH viewportW viewportH
  let centreY := (viewportH - canvasH) / 2
  -- On first load (worldOffset still exactly (0,0)) start at the visual centre.
  let nextX0 := s.worldOffsetX
  let nextY0 := s.worldOffsetY
  let nextX1 := if nextX0 = 0 ∧ nextY0 = 0 then 0 else nextX0
  let nextY1 := if nextX0 = 0 ∧ nextY0 = 0 then centreY else nextY0
  let nextX := clampQ b.minX b.maxX nextX1
  let nextY := clampQ b.minY b.maxY nextY1
  { s with
    canvasW := canvasW, canvasH := canvasH,
    viewportW := viewportW, viewportH := viewportH,
    bounds := b,
    worldOffsetX := nextX, worldOffsetY := nextY,
    incrX := nextX, incrY := nextY }

/-! ### Zoom out (zoomOutCanvas, lines 510-525) -/

/-- zoomOutCanvas: no-op when already at the default zoom, otherwise resets
    scale, the staged zoom-out accumulator, the stage, and the active tile
    (setActiveTile(null) also resets moveSinceActiveRef). -/
def zoomOutCanvas (s : CanvasState) : CanvasState :=
  if s.scale = CANVAS_ZOOM_DEFAULT then s
  else
    { s with scale := CANVAS_ZOOM_DEFAULT, moveSinceZoom := 0, zoomStage := 0,
             activeTile := none, moveSinceActive := 0 }

/-! ### Wheel zoom (Observer onWheel, lines 750-809) -/

/-- onWheel: converts the scroll delta into a scale delta, clamps the result
    into the device zoom range, and returns without touching any other state
    when the clamped scale equals the current one. -/
def onWheel (s : CanvasState) (deltaX deltaY : ℚ) : CanvasState :=
  if s.isIntroAnimating then s
  else
    let scrollDelta := if |deltaY| > |deltaX| then -deltaY else -deltaX
    let zoomSensitivity : ℚ := 1/1000
    let zoomDelta := scrollDelta * zoomSensitivity
    let currentScale := s.scale
    let maxZoom := if s.isMobileViewport then CANVAS_ZOOM_MAX_MOBILE else CANVAS_ZOOM_MAX
    let minZoom := if s.isMobileViewport then CANVAS_ZOOM_MIN_MOBILE else CANVAS_ZOOM_MIN
    let newScale := max minZoom (min maxZoom (currentScale + zoomDelta))
    if newScale = currentScale then s
    else { s with scale := newScale, isPanning := true }

/-! ### Pan handlers (Observer onChangeX / onChangeY, lines 811-953) -/

/-- The staged auto zoom-out block shared verbatim by onChangeX and
    onChangeY (lines 845-874 resp. 917-944). -/
def applyZoomStage (s : CanvasState) (distance : ℚ) : CanvasState :=
  if s.scale > 1 then
    let m := s.moveSinceZoom + distance
    let s1 := { s with moveSinceZoom := m }
    if s1.zoomStage = 1 ∧ m ≥ FIRST_ZOOM_OUT_THRESHOLD then
      -- First stage: zoom out to the intermediate level and clear the
      -- active tile (setActiveTile(null) also resets moveSinceActiveRef).
      { s1 with scale := INTERMEDIATE_CANVAS_ZOOM, zoomStage := 2,
                activeTile := none, moveSinceActive := 0 }
    else if s1.zoomStage = 2 ∧ m ≥ SECOND_ZOOM_OUT_THRESHOLD then
      zoomOutCanvas s1
    else s1
  else s

/-- The active-tile clearing block shared by onChangeX and onChangeY
    (lines 877-882 resp. 946-952). -/
def applyActiveClear (s : CanvasState) (distance : ℚ) : CanvasState :=
  match s.activeTile with
  | none => s
  | some _ =>
    let m := s.moveSinceActive + distance
    if m ≥ ACTIVE_TILE_CLEAR_THRESHOLD then
      { s with activeTile := none, moveSinceActive := 0 }
    else
      { s with moveSinceActive := m }

/-- The panning block of onChangeX (lines 826-843): mark panning, accumulate
    the doubled delta into the incremental x target, clamp it into the pan
    bounds (the quickTo animation toward that target is modelled at
    convergence into worldOffsetX) and add |deltaX| to the drag distance. -/
def panStepX (s : CanvasState) (deltaX : ℚ) : CanvasState :=
  let delta := deltaX * 2 * PAN_SENSITIVITY
  let incrX2 := clampQ s.bounds.minX s.bounds.maxX (s.incrX + delta)
  { s with isPanning := true, incrX := incrX2, worldOffsetX := incrX2,
           dragDistance := s.dragDistance + |deltaX| }

/-- The panning block of onChangeY (lines 899-915), mirror of panStepX. -/
def panStepY (s : CanvasState) (deltaY : ℚ) : CanvasState :=
  let delta := deltaY * 2 * PAN_SENSITIVITY
  let incrY2 := clampQ s.bounds.minY s.bounds.maxY (s.incrY + delta)
  { s with isPanning := true, incrY := incrY2, worldOffsetY := incrY2,
           dragDistance := s.dragDistance + |deltaY| }

/-- Observer onChangeX (lines 811-883).  `eventIsWheel` is the
    self.event.type === "wheel" test; wheel-typed events are excluded from
    panning. -/
def onChangeX (s : CanvasState) (eventIsWheel : Bool) (deltaX : ℚ) : CanvasState :=
  if s.isIntroAnimating then s
  else if eventIsWheel then s
  else applyActiveClear (applyZoomStage (panStepX s deltaX) |deltaX|) |deltaX|

/-- Observer onChangeY (lines 884-953), mirror of onChangeX on the y axis. -/
def onChangeY (s : CanvasState) (eventIsWheel : Bool) (deltaY : ℚ) : CanvasState :=
  if s.isIntroAnimating then s
  else if eventIsWheel then s
  else applyActiveClear (applyZoomStage (panStepY s deltaY) |deltaY|) |deltaY|

/-- One full wheel gesture as the Observer delivers it: the onWheel callback
    plus the onChangeX / onChangeY callbacks, which both see a wheel-typed
    event (and therefore return early). -/
def wheelEventStep (s : CanvasState) (deltaX deltaY : ℚ) : CanvasState :=
  onChangeY (onChangeX (onWheel s deltaX deltaY) true deltaX) true deltaY

/-! ### Drag start / end (Observer onDragStart / onDragEnd, lines 681-748) -/

/-- onDragStart: flags the drag, resets the drag distance, remembers the
    zoom level, and applies the 5 percent drag-zoom-out when at or below the
    base zoom. -/
def onDragStart (s : CanvasState) : CanvasState :=
  if s.isIntroAnimating then s
  else
    let s1 := { s with isDragging := true, dragDistance := 0,
                       zoomBeforeDrag := s.scale }
    if s1.scale ≤ 1 then { s1 with scale := s1.scale * (95/100) } else s1

/-- onDragEnd: restores the pre-drag zoom when the drag-zoom-out was applied
    and (after the 50 ms delay, elided here) clears the drag flag and
    distance. -/
def onDragEnd (s : CanvasState) : CanvasState :=
  let s1 :=
    if s.zoomBeforeDrag ≤ 1 ∧ s.scale < s.zoomBeforeDrag then
      { s with scale := s.zoomBeforeDrag }
    else s
  { s1 with isDragging := false, dragDistance := 0 }

/-! ### Click to centre (handleTileClick, lines 527-626) -/

/-- The "current scale" used as pan-compensation divisor in handleTileClick
    (lines 559-562): the truthiness-plus-sign guard falls back to 1 whenever
    the stored scale is not strictly positive, so the division below is never
    by zero. -/
def guardedScale (s : CanvasState) : ℚ :=
  if s.scale > 0 then s.scale else 1

/-- handleTileClick: guarded against significant drags, then pans so that the
    clicked tile's screen centre `(tileCenterX, tileCenterY)` moves to the
    viewport centre `(viewportCenterX, viewportCenterY)`, dividing the screen
    delta by the current scale, clamping the target camera position into the
    pan bounds, and finally zooming to the device maximum with stage FOCUSED.
    Both the pan animation and the zoom animation are modelled at
    convergence. -/
def handleTileClick (s : CanvasState)
    (tileCenterX tileCenterY viewportCenterX viewportCenterY : ℚ) : CanvasState :=
  if s.isDragging ∧ s.dragDistance ≥ 10 then s
  else
    let currentScale := guardedScale s
    let deltaX := (viewportCenterX - tileCenterX) / currentScale
    let deltaY := (viewportCenterY - tileCenterY) / currentScale
    let targetWorldX := clampQ s.bounds.minX s.bounds.maxX (s.worldOffsetX + deltaX)
    let targetWorldY := clampQ s.bounds.minY s.bounds.maxY (s.worldOffsetY + deltaY)
    let targetZoom := if s.isMobileViewport then CANVAS_ZOOM_MAX_MOBILE else CANVAS_ZOOM_MAX
    { s with incrX := targetWorldX, incrY := targetWorldY,
             worldOffsetX := targetWorldX, worldOffsetY := targetWorldY,
             scale := targetZoom, moveSinceZoom := 0, zoomStage := 1 }

/-- handleTileClickWrapper (lines 1019-1042): drops clicks during the intro
    lock; re-clicking the active tile while zoomed in clears it and zooms
    out; otherwise latches the clicked tile and runs handleTileClick. -/
def handleTileClickWrapper (s : CanvasState) (tileIndex : Nat)
    (tileCenterX tileCenterY viewportCenterX viewportCenterY : ℚ) : CanvasState :=
  if s.isIntroAnimating then s
  else if s.activeTile = some tileIndex ∧ s.scale > 1 then
    zoomOutCanvas { s with activeTile := none, moveSinceActive := 0 }
  else
    handleTileClick { s with activeTile := some tileIndex, moveSinceActive := 0 }
      tileCenterX tileCenterY viewportCenterX viewportCenterY

/-! ### Intro sequence (lines 398-419 and 967-1017) -/

/-- The onComplete callback of the loading-complete intro zoom (lines
    991-1004): lands on the default zoom, resets the staged zoom-out state,
    re-enables interaction, recentres the camera and recomputes the pan
    bounds from fresh measurements. -/
def introComplete (s : CanvasState) (canvasW canvasH viewportW viewportH : ℚ) :
    CanvasState :=
  let defaultZoom :=
    if s.isMobileViewport then CANVAS_ZOOM_DEFAULT_MOBILE else CANVAS_ZOOM_DEFAULT
  recalcPanBounds
    { s with scale := defaultZoom, moveSinceZoom := 0, zoomStage := 0,
             isIntroAnimating := false, worldOffsetX := 0, worldOffsetY := 0 }
    canvasW canvasH viewportW viewportH

/-- The state right after mount: the initial-zoom effect (lines 401-419) sets
    the intro scale, then the bounds effect (lines 496-508) runs
    recalcPanBounds with the first measurements. -/
def initialState (isMobile : Bool) (canvasW canvasH viewportW viewportH : ℚ) :
    CanvasState :=
  recalcPanBounds
    { scale := if isMobile then CANVAS_ZOOM_INTRO_MOBILE else CANVAS_ZOOM_INTRO,
      moveSinceZoom := 0, zoomStage := 0,
      worldOffsetX := 0, worldOffsetY := 0, incrX := 0, incrY := 0,
      activeTile := none, moveSinceActive := 0,
      bounds := ⟨0, 0, 0, 0⟩,
      canvasW := 0, canvasH := 0, viewportW := 0, viewportH := 0,
      isDragging := false, dragDistance := 0, zoomBeforeDrag := 1,
      isIntroAnimating := true, isPanning := false,
      isMobileViewport := isMobile }
    canvasW canvasH viewportW viewportH

/-! ### Tile layout (lines 79-93, 239-367) -/

/-- FilterCategory from the gallery-filter context. -/
inductive FilterCategory where
  | Photography
  | Cinematography
  | Direction
  | All
deriving Repr, DecidableEq

/-- mapProjectTypeToFilterCategory (lines 80-93): project.type is a string
    field; unknown values fall back to Photography. -/
def mapProjectTypeToFilterCategory (type : String) : FilterCategory :=
  match type with
  | "photography" => .Photography
  | "cinematography" => .Cinematography
  | "direction" => .Direction
  | _ => .Photography

/-- image asset metadata dimensions (Sanity): aspectRatio is width/height. -/
structure Dimensions where
  aspectRatio : Option ℚ
  width : Option ℚ
  height : Option ℚ
deriving Repr, DecidableEq

/-- An image reference; the asset.metadata.dimensions chain is collapsed to
    the only part the layout reads. -/
structure ImageRef where
  dimensions : Option Dimensions
deriving Repr, DecidableEq

/-- project.media with the two image slots the layout reads. -/
structure ProjectMedia where
  thumbnailImage : Option ImageRef
  image : Option ImageRef
deriving Repr, DecidableEq

/-- The slice of a ProjectType that tile building reads. -/
structure Project where
  _id : String
  type : String
  media : Option ProjectMedia
deriving Repr, DecidableEq

/-- ASPECT_RATIOS (line 270). -/
def ASPECT_RATIOS : List String := ["1 / 1", "4 / 5", "5 / 4", "16 / 9"]

/-- JS ToInt32: wrap an integer into the signed 32-bit range. -/
def toInt32 (n : ℤ) : ℤ := (n + 2 ^ 31) % 2 ^ 32 - 2 ^ 31

/-- One step of stableHash: hash = (hash << 5) - hash + charCode, followed by
    hash |= 0.  The shift operates on (and truncates to) int32; the
    subtraction and addition are exact in doubles for these magnitudes and
    the |= 0 truncates again. -/
def stableHashStep (hash : ℤ) (c : Char) : ℤ :=
  toInt32 (toInt32 (hash * 32) - hash + c.toNat)

/-- stableHash (lines 272-280). -/
def stableHash (value : String) : ℤ :=
  value.data.foldl stableHashStep 0

/-- One entry of the TileDescriptor list (lines 261-268).  aspectRatio and
    aspectPadding are CSS strings in the source; the strings built by
    interpolation are reproduced with toString on the exact rational. -/
structure TileDescriptor where
  index : Nat
  category : FilterCategory
  aspectRatio : String
  project : Option Project
  aspectPadding : Option String
  widthFactor : ℚ
deriving Repr, DecidableEq

/-- The grid-size computation (lines 239-259): with no projects everything is
    zero; otherwise the count is padded up to MIN_PROJECTS_FOR_CANVAS. -/
def numberOfImages (projects : List Project) : Nat :=
  if projects.length = 0 then 0
  else max projects.length MIN_PROJECTS_FOR_CANVAS

/-- The per-project base tile (lines 296-336): category from the type field,
    aspect ratio from thumbnail-or-main image dimensions with the
    aspectRatio-then-width/height fallback chain, defaulting to "1 / 1" and
    width factor 1. -/
def projectBaseTile (p : Project) : TileDescriptor :=
  let category := mapProjectTypeToFilterCategory p.type
  let imageSource :=
    match p.media.bind (fun m => m.thumbnailImage) with
    | some img => some img
    | none => p.media.bind (fun m => m.image)
  let dimensions := imageSource.bind (fun img => img.dimensions)
  let ar : Option ℚ :=
    match dimensions with
    | none => none
    | some d =>
      match d.aspectRatio with
      | some a => if a > 0 then some a else
          match d.width, d.height with
          | some w, some h => if w ≠ 0 ∧ h ≠ 0 then some (w / h) else none
          | _, _ => none
      | none =>
          match d.width, d.height with
          | some w, some h => if w ≠ 0 ∧ h ≠ 0 then some (w / h) else none
          | _, _ => none
  match ar with
  | some a =>
    if a > 0 then
      { index := 0, category := category,
        aspectRatio := toString a ++ " / 1",
        project := some p,
        aspectPadding := some (toString (1 / a * 100) ++ "%"),
        widthFactor := a }
    else
      { index := 0, category := category, aspectRatio := "1 / 1",
        project := some p, aspectPadding := none, widthFactor := 1 }
  | none =>
      { index := 0, category := category, aspectRatio := "1 / 1",
        project := some p, aspectPadding := none, widthFactor := 1 }

/-- The placeholder branch of tilesWithCategories (lines 355-367),
    parameterised by the number of tiles to produce. -/
def placeholderTiles (n : Nat) : List TileDescriptor :=
  (List.range n).map (fun index =>
    { index := index,
      category := .Photography,
      aspectRatio := ASPECT_RATIOS.getD (index % ASPECT_RATIOS.length) "1 / 1",
      project := none,
      aspectPadding := none,
      widthFactor := 1 })

/-- tilesWithCategories (lines 285-367): deterministically order projects by
    the stable hash of their id (JS Array.sort is stable; ties keep input
    order, matched by a stable merge sort on the hash-le comparison), build
    base tiles, and repeat them cyclically until numberOfImages tiles exist;
    with no projects, fall back to placeholders.  The device class does not
    enter this computation (it only affects CSS gap strings). -/
def buildTiles (projects : List Project) : List TileDescriptor :=
  if projects.length > 0 then
    let shuffledProjects :=
      projects.mergeSort (fun a b => stableHash a._id ≤ stableHash b._id)
    let baseTiles := shuffledProjects.map projectBaseTile
    let fallbackTile : TileDescriptor :=
      { index := 0, category := .Photography, aspectRatio := "1 / 1",
        project := none, aspectPadding := none, widthFactor := 1 }
    (List.range (numberOfImages projects)).map (fun index =>
      let source := baseTiles.getD (index % baseTiles.length) fallbackTile
      { source with index := index })
  else
    placeholderTiles (numberOfImages projects)

/-! ### Operations and reachability -/

/-- One user-visible operation on the mounted component. -/
inductive Op where
  | panX (eventIsWheel : Bool) (delta : ℚ)
  | panY (eventIsWheel : Bool) (delta : ℚ)
  | wheel (deltaX deltaY : ℚ)
  | click (tileIndex : Nat) (tileCenterX tileCenterY viewportCenterX viewportCenterY : ℚ)
  | zoomOutCmd
  | dragStart
  | dragEnd
  | resize (canvasW canvasH viewportW viewportH : ℚ)
  | introDone (canvasW canvasH viewportW viewportH : ℚ)
deriving Repr, DecidableEq

/-- The transition function: dispatch one operation to its handler. -/
def step (s : CanvasState) : Op → CanvasState
  | .panX w d => onChangeX s w d
  | .panY w d => onChangeY s w d
  | .wheel dx dy => onWheel s dx dy
  | .click i tx ty vx vy => handleTileClickWrapper s i tx ty vx vy
  | .zoomOutCmd => zoomOutCanvas s
  | .dragStart => onDragStart s
  | .dragEnd => onDragEnd s
  | .resize cw ch vw vh => recalcPanBounds s cw ch vw vh
  | .introDone cw ch vw vh => introComplete s cw ch vw vh

/-- Run a list of operations from a state. -/
def run (s : CanvasState) (ops : List Op) : CanvasState :=
  ops.foldl step s

/-- States reachable from `init` by any finite sequence of operations. -/
inductive Reachable (init : CanvasState) : CanvasState → Prop where
  | refl : Reachable init init
  | tail {s : CanvasState} (op : Op) : Reachable init s → Reachable init (step s op)

/-! ### Concrete fixtures for witnesses and counterexamples -/

/-- A concrete settled desktop state: 2000 by 2000 canvas in a 1000 by 800
    viewport, default zoom, bounds up to date, camera slightly off centre. -/
def fixtureState : CanvasState :=
  { scale := 1, moveSinceZoom := 0, zoomStage := 0,
    worldOffsetX := 5, worldOffsetY := -7, incrX := 5, incrY := -7,
    activeTile := none, moveSinceActive := 0,
    bounds := panBoundsFormula 2000 2000 1000 800,
    canvasW := 2000, canvasH := 2000, viewportW := 1000, viewportH := 800,
    isDragging := false, dragDistance := 0, zoomBeforeDrag := 1,
    isIntroAnimating := false, isPanning := false, isMobileViewport := false }

/-- A default tile used with List.getD. -/
def defaultTile : TileDescriptor :=
  { index := 0, category := .Photography, aspectRatio := "1 / 1",
    project := none, aspectPadding := none, widthFactor := 1 }

/-- A concrete project for witnesses. -/
def sampleDimensions : Dimensions :=
  { aspectRatio := some (4/5), width := some 800, height := some 1000 }

def sampleProject : Project :=
  { _id := "p1", type := "photography",
    media := some ⟨none, some ⟨some sampleDimensions⟩⟩ }

/-! ### Spec-side bounds formula (for comparison with the code) -/

/-- Following the spec's words (section 4.2): half-range
    = max 0 ((contentExtent * scale - viewportExtent + 2 * padding) / (2 * scale)),
    bounds = centre plus/minus half-range, with horizontal centre 0 and the
    vertical axis centred on the offset that centres the grid.  Stated here
    only to compare against the code's panBoundsFormula. -/
def specPanBoundsAtScale (canvasW canvasH viewportW viewportH scale padding : ℚ) :
    PanBounds :=
  let halfX := max 0 ((canvasW * scale - viewportW + 2 * padding) / (2 * scale))
  let centreY := (viewportH - canvasH) / 2
  let halfY := max 0 ((canvasH * scale - viewportH + 2 * padding) / (2 * scale))
  ⟨-halfX, halfX, centreY - halfY, centreY + halfY⟩

/-! ### Helper lemmas -/

theorem clampQ_mem {lo hi : ℚ} (v : ℚ) (h : lo ≤ hi) :
    lo ≤ clampQ lo hi v ∧ clampQ lo hi v ≤ hi :=
  ⟨le_min h (le_max_left lo v), min_le_left hi _⟩

theorem panBoundsFormula_wf (a b c d : ℚ) :
    (panBoundsFormula a b c d).minX ≤ (panBoundsFormula a b c d).maxX ∧
    (panBoundsFormula a b c d).minY ≤ (panBoundsFormula a b c d).maxY := by
  have hx : (0 : ℚ) ≤ max 0 (a - c) := le_max_left 0 (a - c)
  have hy : (0 : ℚ) ≤ max 0 (b - d) := le_max_left 0 (b - d)
  simp only [panBoundsFormula, CANVAS_ZOOM_MAX]
  constructor <;> [skip; skip] <;> dsimp only <;> linarith

/-- The containment invariant: the stored bounds agree with the formula for
    the stored measurements, and both the world offset and the incremental
    targets lie inside the bounds. -/
def InBounds (s : CanvasState) : Prop :=
  s.bounds = panBoundsFormula s.canvasW s.canvasH s.viewportW s.viewportH ∧
  s.bounds.minX ≤ s.worldOffsetX ∧ s.worldOffsetX ≤ s.bounds.maxX ∧
  s.bounds.minY ≤ s.worldOffsetY ∧ s.worldOffsetY ≤ s.bounds.maxY ∧
  s.bounds.minX ≤ s.incrX ∧ s.incrX ≤ s.bounds.maxX ∧
  s.bounds.minY ≤ s.incrY ∧ s.incrY ≤ s.bounds.maxY

theorem recalcPanBounds_inBounds (s : CanvasState) (a b c d : ℚ) :
    InBounds (recalcPanBounds s a b c d) := by
  have wf := panBoundsFormula_wf a b c d
  unfold InBounds recalcPanBounds
  dsimp only
  exact ⟨rfl, (clampQ_mem _ wf.1).1, (clampQ_mem _ wf.1).2,
    (clampQ_mem _ wf.2).1, (clampQ_mem _ wf.2).2,
    (clampQ_mem _ wf.1).1, (clampQ_mem _ wf.1).2,
    (clampQ_mem _ wf.2).1, (clampQ_mem _ wf.2).2⟩

/-- `FrameEq t s`: the states agree on every field the containment invariant
    mentions (bounds, measurements, world offset, incremental targets). -/
def FrameEq (t s : CanvasState) : Prop :=
  t.bounds = s.bounds ∧ t.canvasW = s.canvasW ∧ t.canvasH = s.canvasH ∧
  t.viewportW = s.viewportW ∧ t.viewportH = s.viewportH ∧
  t.worldOffsetX = s.worldOffsetX ∧ t.worldOffsetY = s.worldOffsetY ∧
  t.incrX = s.incrX ∧ t.incrY = s.incrY

theorem frameEq_self (s : CanvasState) : FrameEq s s :=
  ⟨rfl, rfl, rfl, rfl, rfl, rfl, rfl, rfl, rfl⟩

theorem FrameEq.trans {t u s : CanvasState} (h1 : FrameEq t u) (h2 : FrameEq u s) :
    FrameEq t s := by
  obtain ⟨a1, a2, a3, a4, a5, a6, a7, a8, a9⟩ := h1
  obtain ⟨b1, b2, b3, b4, b5, b6, b7, b8, b9⟩ := h2
  exact ⟨a1.trans b1, a2.trans b2, a3.trans b3, a4.trans b4, a5.trans b5,
    a6.trans b6, a7.trans b7, a8.trans b8, a9.trans b9⟩

theorem inBounds_of_frameEq {t s : CanvasState} (h : FrameEq t s)
    (hs : InBounds s) : InBounds t := by
  obtain ⟨h1, h2, h3, h4, h5, h6, h7, h8, h9⟩ := h
  unfold InBounds at hs ⊢
  rw [h1, h2, h3, h4, h5, h6, h7, h8, h9]
  exact hs

/-- The staged zoom-out block only touches scale, stage, accumulators and the
    active tile. -/
theorem applyZoomStage_frame (s : CanvasState) (d : ℚ) :
    FrameEq (applyZoomStage s d) s := by
  unfold FrameEq
  simp only [applyZoomStage, zoomOutCanvas]
  repeat' split
  all_goals simp

/-- The active-tile clearing block only touches the active tile and its
    accumulator. -/
theorem applyActiveClear_frame (s : CanvasState) (d : ℚ) :
    FrameEq (applyActiveClear s d) s := by
  unfold FrameEq
  simp only [applyActiveClear]
  repeat' split
  all_goals simp

/-- Well-formed bounds extracted from the invariant. -/
theorem InBounds.wf {s : CanvasState} (hs : InBounds s) :
    s.bounds.minX ≤ s.bounds.maxX ∧ s.bounds.minY ≤ s.bounds.maxY := by
  rw [hs.1]
  exact panBoundsFormula_wf s.canvasW s.canvasH s.viewportW s.viewportH

theorem onChangeX_inBounds (s : CanvasState) (w : Bool) (d : ℚ)
    (hs : InBounds s) : InBounds (onChangeX s w d) := by
  unfold onChangeX
  split
  · exact hs
  split
  · exact hs
  refine inBounds_of_frameEq
    ((applyActiveClear_frame _ _).trans (applyZoomStage_frame _ _)) ?_
  have wf := hs.wf
  obtain ⟨h1, _, _, hy1, hy2, _, _, hiy1, hiy2⟩ := hs
  exact ⟨h1, (clampQ_mem _ wf.1).1, (clampQ_mem _ wf.1).2, hy1, hy2,
    (clampQ_mem _ wf.1).1, (clampQ_mem _ wf.1).2, hiy1, hiy2⟩

theorem onChangeY_inBounds (s : CanvasState) (w : Bool) (d : ℚ)
    (hs : InBounds s) : InBounds (onChangeY s w d) := by
  unfold onChangeY
  split
  · exact hs
  split
  · exact hs
  refine inBounds_of_frameEq
    ((applyActiveClear_frame _ _).trans (applyZoomStage_frame _ _)) ?_
  have wf := hs.wf
  obtain ⟨h1, hx1, hx2, _, _, hix1, hix2, _, _⟩ := hs
  exact ⟨h1, hx1, hx2, (clampQ_mem _ wf.2).1, (clampQ_mem _ wf.2).2,
    hix1, hix2, (clampQ_mem _ wf.2).1, (clampQ_mem _ wf.2).2⟩

theorem onWheel_frame (s : CanvasState) (dx dy : ℚ) :
    FrameEq (onWheel s dx dy) s := by
  unfold FrameEq
  simp only [onWheel]
  repeat' split
  all_goals simp

theorem zoomOutCanvas_frame (s : CanvasState) :
    FrameEq (zoomOutCanvas s) s := by
  unfold FrameEq
  simp only [zoomOutCanvas]
  repeat' split
  all_goals simp

theorem onDragStart_frame (s : CanvasState) :
    FrameEq (onDragStart s) s := by
  unfold FrameEq
  simp only [onDragStart]
  repeat' split
  all_goals simp

theorem onDragEnd_frame (s : CanvasState) :
    FrameEq (onDragEnd s) s := by
  unfold FrameEq
  simp only [onDragEnd]
  repeat' split
  all_goals simp

theorem handleTileClick_inBounds (s : CanvasState) (tx ty vx vy : ℚ)
    (hs : InBounds s) : InBounds (handleTileClick s tx ty vx vy) := by
  unfold handleTileClick
  split
  · exact hs
  have wf := hs.wf
  obtain ⟨h1, _, _, _, _, _, _, _, _⟩ := hs
  exact ⟨h1, (clampQ_mem _ wf.1).1, (clampQ_mem _ wf.1).2,
    (clampQ_mem _ wf.2).1, (clampQ_mem _ wf.2).2,
    (clampQ_mem _ wf.1).1, (clampQ_mem _ wf.1).2,
    (clampQ_mem _ wf.2).1, (clampQ_mem _ wf.2).2⟩

theorem handleTileClickWrapper_inBounds (s : CanvasState) (i : Nat)
    (tx ty vx vy : ℚ) (hs : InBounds s) :
    InBounds (handleTileClickWrapper s i tx ty vx vy) := by
  unfold handleTileClickWrapper
  split
  · exact hs
  split
  · refine inBounds_of_frameEq (FrameEq.trans (zoomOutCanvas_frame _) ?_) hs
    exact ⟨rfl, rfl, rfl, rfl, rfl, rfl, rfl, rfl, rfl⟩
  · refine handleTileClick_inBounds _ _ _ _ _ ?_
    exact inBounds_of_frameEq ⟨rfl, rfl, rfl, rfl, rfl, rfl, rfl, rfl, rfl⟩ hs

theorem step_inBounds (s : CanvasState) (op : Op) (hs : InBounds s) :
    InBounds (step s op) := by
  cases op with
  | panX w d => exact onChangeX_inBounds s w d hs
  | panY w d => exact onChangeY_inBounds s w d hs
  | wheel dx dy => exact inBounds_of_frameEq (onWheel_frame s dx dy) hs
  | click i tx ty vx vy => exact handleTileClickWrapper_inBounds s i tx ty vx vy hs
  | zoomOutCmd => exact inBounds_of_frameEq (zoomOutCanvas_frame s) hs
  | dragStart => exact inBounds_of_frameEq (onDragStart_frame s) hs
  | dragEnd => exact inBounds_of_frameEq (onDragEnd_frame s) hs
  | resize cw ch vw vh => exact recalcPanBounds_inBounds s cw ch vw vh
  | introDone cw ch vw vh => exact recalcPanBounds_inBounds _ cw ch vw vh

theorem initialState_inBounds (m : Bool) (cw ch vw vh : ℚ) :
    InBounds (initialState m cw ch vw vh) :=
  recalcPanBounds_inBounds _ cw ch vw vh

theorem reachable_inBounds {init s : CanvasState} (h0 : InBounds init)
    (h : Reachable init s) : InBounds s := by
  induction h with
  | refl => exact h0
  | tail op _ ih => exact step_inBounds _ op ih

theorem onChangeX_wheel_id (s : CanvasState) (d : ℚ) : onChangeX s true d = s := by
  unfold onChangeX
  split
  · rfl
  · rfl

theorem onChangeY_wheel_id (s : CanvasState) (d : ℚ) : onChangeY s true d = s := by
  unfold onChangeY
  split
  · rfl
  · rfl

theorem handleTileClick_bounds (s : CanvasState) (tx ty vx vy : ℚ) :
    (handleTileClick s tx ty vx vy).bounds = s.bounds := by
  unfold handleTileClick
  split
  · rfl
  · rfl

theorem applyActiveClear_zoom_frame (s : CanvasState) (d : ℚ) :
    (applyActiveClear s d).zoomStage = s.zoomStage ∧
    (applyActiveClear s d).moveSinceZoom = s.moveSinceZoom ∧
    (applyActiveClear s d).scale = s.scale := by
  simp only [applyActiveClear]
  repeat' split
  all_goals simp

/-- The scale onWheel produces: unchanged during the intro lock, otherwise
    the previous scale plus the sensitivity-weighted scroll delta, clamped
    into the device zoom range. -/
theorem onWheel_scale (s : CanvasState) (dx dy : ℚ) :
    (onWheel s dx dy).scale =
      (if s.isIntroAnimating then s.scale
       else
         max (if s.isMobileViewport then CANVAS_ZOOM_MIN_MOBILE else CANVAS_ZOOM_MIN)
           (min (if s.isMobileViewport then CANVAS_ZOOM_MAX_MOBILE else CANVAS_ZOOM_MAX)
             (s.scale + (if |dy| > |dx| then -dy else -dx) * (1 / 1000)))) := by
  unfold onWheel
  by_cases h : s.isIntroAnimating = true
  · rw [if_pos h, if_pos h]
  · rw [if_neg h, if_neg h]
    dsimp only
    by_cases heq :
        max (if s.isMobileViewport = true then CANVAS_ZOOM_MIN_MOBILE else CANVAS_ZOOM_MIN)
          (min (if s.isMobileViewport = true then CANVAS_ZOOM_MAX_MOBILE else CANVAS_ZOOM_MAX)
            (s.scale + (if |dy| > |dx| then -dy else -dx) * (1 / 1000))) = s.scale
    · rw [if_pos heq, heq]
    · rw [if_neg heq]

/-- onWheel leaves the staged zoom-out state, the active tile state and the
    drag distance unchanged. -/
theorem onWheel_misc (s : CanvasState) (dx dy : ℚ) :
    (onWheel s dx dy).moveSinceZoom = s.moveSinceZoom ∧
    (onWheel s dx dy).zoomStage = s.zoomStage ∧
    (onWheel s dx dy).activeTile = s.activeTile ∧
    (onWheel s dx dy).moveSinceActive = s.moveSinceActive ∧
    (onWheel s dx dy).dragDistance = s.dragDistance := by
  simp only [onWheel]
  repeat' split
  all_goals simp

theorem applyActiveClear_none (s : CanvasState) (d : ℚ)
    (h : s.activeTile = none) : applyActiveClear s d = s := by
  unfold applyActiveClear
  rw [h]

/-- Below the first threshold (or when not zoomed in past 1) the staged
    zoom-out block only accumulates distance. -/
theorem applyZoomStage_stay (s : CanvasState) (dist : ℚ) (hsc : s.scale > 1)
    (hst : s.zoomStage = 1) (hlt : s.moveSinceZoom + dist < FIRST_ZOOM_OUT_THRESHOLD) :
    applyZoomStage s dist = { s with moveSinceZoom := s.moveSinceZoom + dist } := by
  have hlt2 : ¬(s.moveSinceZoom + dist ≥ FIRST_ZOOM_OUT_THRESHOLD) := not_le.2 hlt
  simp [applyZoomStage, hsc, hst, hlt2]

/-- Crossing the first threshold at stage FOCUSED fires the intermediate
    zoom-out and clears the active tile. -/
theorem applyZoomStage_fire1 (s : CanvasState) (dist : ℚ) (hsc : s.scale > 1)
    (hst : s.zoomStage = 1) (hge : s.moveSinceZoom + dist ≥ FIRST_ZOOM_OUT_THRESHOLD) :
    applyZoomStage s dist =
      { s with moveSinceZoom := s.moveSinceZoom + dist,
               scale := INTERMEDIATE_CANVAS_ZOOM, zoomStage := 2,
               activeTile := none, moveSinceActive := 0 } := by
  simp [applyZoomStage, hsc, hst, hge]

/-- Crossing the second threshold at stage INTERMEDIATE fires the full
    zoom-out. -/
theorem applyZoomStage_fire2 (s : CanvasState) (dist : ℚ) (hsc : s.scale > 1)
    (hst : s.zoomStage = 2) (hge : s.moveSinceZoom + dist ≥ SECOND_ZOOM_OUT_THRESHOLD) :
    applyZoomStage s dist =
      { s with moveSinceZoom := 0, scale := CANVAS_ZOOM_DEFAULT, zoomStage := 0,
               activeTile := none, moveSinceActive := 0 } := by
  have hne : s.scale ≠ CANVAS_ZOOM_DEFAULT := by
    unfold CANVAS_ZOOM_DEFAULT
    exact ne_of_gt hsc
  simp [applyZoomStage, zoomOutCanvas, hsc, hst, hge, hne]

/-- The non-guarded branch of handleTileClick, as one record equation. -/
theorem handleTileClick_eq (s : CanvasState) (tx ty vx vy : ℚ)
    (h : ¬(s.isDragging = true ∧ s.dragDistance ≥ 10)) :
    handleTileClick s tx ty vx vy =
      { s with
        incrX := clampQ s.bounds.minX s.bounds.maxX
          (s.worldOffsetX + (vx - tx) / guardedScale s),
        incrY := clampQ s.bounds.minY s.bounds.maxY
          (s.worldOffsetY + (vy - ty) / guardedScale s),
        worldOffsetX := clampQ s.bounds.minX s.bounds.maxX
          (s.worldOffsetX + (vx - tx) / guardedScale s),
        worldOffsetY := clampQ s.bounds.minY s.bounds.maxY
          (s.worldOffsetY + (vy - ty) / guardedScale s),
        scale := if s.isMobileViewport then CANVAS_ZOOM_MAX_MOBILE else CANVAS_ZOOM_MAX,
        moveSinceZoom := 0, zoomStage := 1 } := by
  unfold handleTileClick
  rw [if_neg h]

/-! ### Claim theorems -/

/-- C1: for every sequence of pan, wheel-zoom, click-to-centre and zoom-out
    operations (drag start/end, resize and intro completion included) from
    the initial mounted state, the world offset and the clamped incremental
    pan target lie within the pan bounds in effect at that state's scale
    (which, for this component, are the scale-independent formula bounds of
    the current measurements). -/
theorem C1_bounds_containment (isMobile : Bool) (cw ch vw vh : ℚ)
    (s : CanvasState) (h : Reachable (initialState isMobile cw ch vw vh) s) :
    s.bounds = panBoundsAtScale s.canvasW s.canvasH s.viewportW s.viewportH s.scale ∧
    s.bounds.minX ≤ s.worldOffsetX ∧ s.worldOffsetX ≤ s.bounds.maxX ∧
    s.bounds.minY ≤ s.worldOffsetY ∧ s.worldOffsetY ≤ s.bounds.maxY ∧
    s.bounds.minX ≤ s.incrX ∧ s.incrX ≤ s.bounds.maxX ∧
    s.bounds.minY ≤ s.incrY ∧ s.incrY ≤ s.bounds.maxY :=
  reachable_inBounds (initialState_inBounds isMobile cw ch vw vh) h

theorem C1_bounds_containment_witness :
    (run (initialState false 2000 2000 1000 800)
        [Op.panX false 300, Op.wheel 0 (-100)]).bounds.minX ≤
      (run (initialState false 2000 2000 1000 800)
        [Op.panX false 300, Op.wheel 0 (-100)]).worldOffsetX ∧
    (run (initialState false 2000 2000 1000 800)
        [Op.panX false 300, Op.wheel 0 (-100)]).worldOffsetX ≤
      (run (initialState false 2000 2000 1000 800)
        [Op.panX false 300, Op.wheel 0 (-100)]).bounds.maxX := by
  have h := C1_bounds_containment false 2000 2000 1000 800
    (run (initialState false 2000 2000 1000 800) [Op.panX false 300, Op.wheel 0 (-100)])
    (Reachable.tail (Op.wheel 0 (-100)) (Reachable.tail (Op.panX false 300) Reachable.refl))
  exact ⟨h.2.1, h.2.2.1⟩

/-- C2 as stated fails on the code: a wheel zoom changes the scale but
    leaves the stored pan bounds unchanged, and the stored bounds do not
    match the spec half-range formula evaluated at the new scale (with the
    code's edge padding of 120). -/
theorem C2_counterexample :
    (onWheel fixtureState 0 (-100)).scale ≠ fixtureState.scale ∧
    (onWheel fixtureState 0 (-100)).bounds = fixtureState.bounds ∧
    (onWheel fixtureState 0 (-100)).bounds.maxX ≠
      (specPanBoundsAtScale 2000 2000 1000 800
        (onWheel fixtureState 0 (-100)).scale 120).maxX := by
  have hsc : (onWheel fixtureState 0 (-100)).scale = 11 / 10 := by
    rw [onWheel_scale]
    norm_num [fixtureState, CANVAS_ZOOM_MIN, CANVAS_ZOOM_MAX]
  refine ⟨?_, (onWheel_frame fixtureState 0 (-100)).1, ?_⟩
  · rw [hsc]
    norm_num [fixtureState]
  · rw [(onWheel_frame fixtureState 0 (-100)).1, hsc]
    norm_num [fixtureState, panBoundsFormula, specPanBoundsAtScale, CANVAS_ZOOM_MAX]

/-- C2 amended: pan bounds are recomputed on resize and at intro completion
    only, equal the scale-independent formula half-range
    = (max 0 (contentExtent - viewportExtent) / 2 + padding) * CANVAS_ZOOM_MAX
    around the centre, and are left unchanged by wheel zoom, click-to-centre
    zoom-in and staged zoom-out. -/
theorem C2_bounds_recompute_amended (s : CanvasState) (cw ch vw vh dx dy : ℚ)
    (i : Nat) (tx ty vx vy : ℚ) :
    (recalcPanBounds s cw ch vw vh).bounds = panBoundsFormula cw ch vw vh ∧
    (introComplete s cw ch vw vh).bounds = panBoundsFormula cw ch vw vh ∧
    (onWheel s dx dy).bounds = s.bounds ∧
    (handleTileClickWrapper s i tx ty vx vy).bounds = s.bounds ∧
    (zoomOutCanvas s).bounds = s.bounds ∧
    panBoundsFormula cw ch vw vh =
      ⟨-((max 0 (cw - vw) / 2 + 120) * CANVAS_ZOOM_MAX),
        (max 0 (cw - vw) / 2 + 120) * CANVAS_ZOOM_MAX,
        (vh - ch) / 2 - (max 0 (ch - vh) / 2 + 120) * CANVAS_ZOOM_MAX,
        (vh - ch) / 2 + (max 0 (ch - vh) / 2 + 120) * CANVAS_ZOOM_MAX⟩ := by
  refine ⟨rfl, rfl, (onWheel_frame s dx dy).1, ?_, (zoomOutCanvas_frame s).1, rfl⟩
  unfold handleTileClickWrapper
  split
  · rfl
  split
  · exact (zoomOutCanvas_frame _).1
  · exact handleTileClick_bounds _ _ _ _ _

/-- C8 as stated fails on the code: with all measured sizes zero the bounds
    do not degenerate to a zero-size rectangle; the constant edge padding
    (times the expansion factor) is always present. -/
theorem C8_counterexample :
    ¬ ((panBoundsFormula 0 0 0 0).minX = 0 ∧ (panBoundsFormula 0 0 0 0).maxX = 0) := by
  norm_num [panBoundsFormula, CANVAS_ZOOM_MAX]

/-- C8 amended: with all measured sizes zero the pan bounds are the fixed
    padded rectangle (plus-minus 360 around the centre); bounds are always
    well-formed; and the one division by scale (click centring) is guarded:
    its divisor is always strictly positive. -/
theorem C8_zero_size_amended :
    panBoundsFormula 0 0 0 0 = ⟨-360, 360, -360, 360⟩ ∧
    (∀ a b c d : ℚ,
      (panBoundsFormula a b c d).minX ≤ (panBoundsFormula a b c d).maxX ∧
      (panBoundsFormula a b c d).minY ≤ (panBoundsFormula a b c d).maxY) ∧
    (∀ s : CanvasState, 0 < guardedScale s) := by
  refine ⟨?_, panBoundsFormula_wf, ?_⟩
  · norm_num [panBoundsFormula, CANVAS_ZOOM_MAX]
  intro s
  unfold guardedScale
  split
  · assumption
  · norm_num

/-- C9: a wheel gesture (the onWheel callback plus the wheel-typed
    onChangeX/onChangeY callbacks, which return early) leaves the world
    offset, the incremental pan targets, the staged zoom-out accumulator and
    stage, the active tile and its accumulator, the pan bounds and the drag
    distance unchanged; the only numeric state it writes is the scale,
    clamped into the device zoom range (unchanged during the intro lock). -/
theorem C9_wheel_frame_effect (s : CanvasState) (dx dy : ℚ) :
    (wheelEventStep s dx dy).worldOffsetX = s.worldOffsetX ∧
    (wheelEventStep s dx dy).worldOffsetY = s.worldOffsetY ∧
    (wheelEventStep s dx dy).incrX = s.incrX ∧
    (wheelEventStep s dx dy).incrY = s.incrY ∧
    (wheelEventStep s dx dy).moveSinceZoom = s.moveSinceZoom ∧
    (wheelEventStep s dx dy).zoomStage = s.zoomStage ∧
    (wheelEventStep s dx dy).activeTile = s.activeTile ∧
    (wheelEventStep s dx dy).moveSinceActive = s.moveSinceActive ∧
    (wheelEventStep s dx dy).bounds = s.bounds ∧
    (wheelEventStep s dx dy).dragDistance = s.dragDistance ∧
    (wheelEventStep s dx dy).scale =
      (if s.isIntroAnimating then s.scale
       else
         max (if s.isMobileViewport then CANVAS_ZOOM_MIN_MOBILE else CANVAS_ZOOM_MIN)
           (min (if s.isMobileViewport then CANVAS_ZOOM_MAX_MOBILE else CANVAS_ZOOM_MAX)
             (s.scale + (if |dy| > |dx| then -dy else -dx) * (1 / 1000)))) := by
  have hstep : wheelEventStep s dx dy = onWheel s dx dy := by
    unfold wheelEventStep
    rw [onChangeX_wheel_id, onChangeY_wheel_id]
  rw [hstep]
  have hf := onWheel_frame s dx dy
  have hm := onWheel_misc s dx dy
  exact ⟨hf.2.2.2.2.2.1, hf.2.2.2.2.2.2.1, hf.2.2.2.2.2.2.2.1, hf.2.2.2.2.2.2.2.2,
    hm.1, hm.2.1, hm.2.2.1, hm.2.2.2.1, hf.1, hm.2.2.2.2, onWheel_scale s dx dy⟩

/-- C3: the staged zoom-out machine.  A click-to-centre from stage NONE
    latches the tile and moves to stage FOCUSED with the distance accumulator
    reset; pan deltas while zoomed in accumulate (stage unchanged below the
    first threshold); reaching FIRST_ZOOM_OUT_THRESHOLD moves FOCUSED to
    INTERMEDIATE, sets the scale to INTERMEDIATE_CANVAS_ZOOM and clears the
    active tile; reaching SECOND_ZOOM_OUT_THRESHOLD moves INTERMEDIATE to
    NONE and resets the scale to CANVAS_ZOOM_DEFAULT. -/
theorem C3_zoom_stage_machine :
    (∀ (s : CanvasState) (k : Nat) (tx ty vx vy : ℚ),
      s.isIntroAnimating = false → s.zoomStage = 0 →
      ¬(s.activeTile = some k ∧ s.scale > 1) →
      ¬(s.isDragging = true ∧ s.dragDistance ≥ 10) →
      (handleTileClickWrapper s k tx ty vx vy).zoomStage = 1 ∧
      (handleTileClickWrapper s k tx ty vx vy).moveSinceZoom = 0 ∧
      (handleTileClickWrapper s k tx ty vx vy).activeTile = some k) ∧
    (∀ (s : CanvasState) (d : ℚ),
      s.isIntroAnimating = false → s.zoomStage = 1 → s.scale > 1 →
      s.moveSinceZoom + |d| < FIRST_ZOOM_OUT_THRESHOLD →
      (onChangeX s false d).zoomStage = 1 ∧
      (onChangeX s false d).moveSinceZoom = s.moveSinceZoom + |d| ∧
      (onChangeX s false d).scale = s.scale) ∧
    (∀ (s : CanvasState) (d : ℚ),
      s.isIntroAnimating = false → s.zoomStage = 1 → s.scale > 1 →
      s.moveSinceZoom + |d| ≥ FIRST_ZOOM_OUT_THRESHOLD →
      (onChangeX s false d).zoomStage = 2 ∧
      (onChangeX s false d).scale = INTERMEDIATE_CANVAS_ZOOM ∧
      (onChangeX s false d).activeTile = none) ∧
    (∀ (s : CanvasState) (d : ℚ),
      s.isIntroAnimating = false → s.zoomStage = 2 → s.scale > 1 →
      s.moveSinceZoom + |d| ≥ SECOND_ZOOM_OUT_THRESHOLD →
      (onChangeX s false d).zoomStage = 0 ∧
      (onChangeX s false d).scale = CANVAS_ZOOM_DEFAULT ∧
      (onChangeX s false d).moveSinceZoom = 0 ∧
      (onChangeX s false d).activeTile = none) := by
  refine ⟨?_, ?_, ?_, ?_⟩
  · intro s k tx ty vx vy h1 h2 h3 h4
    unfold handleTileClickWrapper
    rw [if_neg (by simp [h1]), if_neg h3,
      handleTileClick_eq { s with activeTile := some k, moveSinceActive := 0 }
        tx ty vx vy h4]
    exact ⟨rfl, rfl, rfl⟩
  · intro s d h1 h2 h3 h4
    unfold onChangeX
    rw [if_neg (by simp [h1]), if_neg Bool.false_ne_true,
      applyZoomStage_stay (panStepX s d) |d| h3 h2 h4]
    refine ⟨?_, ?_, ?_⟩
    · rw [(applyActiveClear_zoom_frame _ _).1]
      exact h2
    · rw [(applyActiveClear_zoom_frame _ _).2.1]
      exact rfl
    · rw [(applyActiveClear_zoom_frame _ _).2.2]
      exact rfl
  · intro s d h1 h2 h3 h4
    unfold onChangeX
    rw [if_neg (by simp [h1]), if_neg Bool.false_ne_true,
      applyZoomStage_fire1 (panStepX s d) |d| h3 h2 h4, applyActiveClear_none]
    · exact ⟨rfl, rfl, rfl⟩
    · rfl
  · intro s d h1 h2 h3 h4
    unfold onChangeX
    rw [if_neg (by simp [h1]), if_neg Bool.false_ne_true,
      applyZoomStage_fire2 (panStepX s d) |d| h3 h2 h4, applyActiveClear_none]
    · exact ⟨rfl, rfl, rfl, rfl⟩
    · rfl

theorem C3_zoom_stage_machine_witness :
    ((handleTileClickWrapper fixtureState 3 600 500 500 400).zoomStage = 1 ∧
      (handleTileClickWrapper fixtureState 3 600 500 500 400).moveSinceZoom = 0 ∧
      (handleTileClickWrapper fixtureState 3 600 500 500 400).activeTile = some 3) ∧
    ((onChangeX { fixtureState with zoomStage := 1, scale := 3, activeTile := some 3 }
        false 7).zoomStage = 1) ∧
    ((onChangeX { fixtureState with zoomStage := 1, scale := 3, activeTile := some 3 }
        false 600).zoomStage = 2 ∧
      (onChangeX { fixtureState with zoomStage := 1, scale := 3, activeTile := some 3 }
        false 600).scale = INTERMEDIATE_CANVAS_ZOOM) ∧
    ((onChangeX { fixtureState with zoomStage := 2, scale := 3/2, moveSinceZoom := 600 }
        false 1500).zoomStage = 0 ∧
      (onChangeX { fixtureState with zoomStage := 2, scale := 3/2, moveSinceZoom := 600 }
        false 1500).scale = CANVAS_ZOOM_DEFAULT) := by
  have ha := C3_zoom_stage_machine.1 fixtureState 3 600 500 500 400
    (by simp [fixtureState]) (by simp [fixtureState]) (by simp [fixtureState])
    (by simp [fixtureState])
  have hb := C3_zoom_stage_machine.2.1
    { fixtureState with zoomStage := 1, scale := 3, activeTile := some 3 } 7
    (by simp [fixtureState]) rfl (by norm_num [fixtureState])
    (by norm_num [fixtureState, FIRST_ZOOM_OUT_THRESHOLD])
  have hc := C3_zoom_stage_machine.2.2.1
    { fixtureState with zoomStage := 1, scale := 3, activeTile := some 3 } 600
    (by simp [fixtureState]) rfl (by norm_num [fixtureState])
    (by norm_num [fixtureState, FIRST_ZOOM_OUT_THRESHOLD])
  have hd := C3_zoom_stage_machine.2.2.2
    { fixtureState with zoomStage := 2, scale := 3/2, moveSinceZoom := 600 } 1500
    (by simp [fixtureState]) rfl (by norm_num [fixtureState])
    (by norm_num [fixtureState, SECOND_ZOOM_OUT_THRESHOLD])
  exact ⟨ha, hb.1, ⟨hc.1, hc.2.1⟩, ⟨hd.1, hd.2.1⟩⟩

/-- C4: click-to-centre computes the pan delta as
    (viewportCentre - screenPoint) / currentScale, adds it to the current
    camera position, and clamps the result into the pan bounds in effect at
    the target zoom level (which for this component equal the stored
    scale-independent bounds); concretely, for a 1000 by 800 viewport, tile
    centre (600, 500) and scale 1 the added delta is (-100, -100). -/
theorem C4_click_centering_math :
    (∀ (s : CanvasState) (tx ty vx vy : ℚ),
      ¬(s.isDragging = true ∧ s.dragDistance ≥ 10) →
      s.bounds = panBoundsFormula s.canvasW s.canvasH s.viewportW s.viewportH →
      (handleTileClick s tx ty vx vy).worldOffsetX =
        clampQ
          (panBoundsAtScale s.canvasW s.canvasH s.viewportW s.viewportH
            (handleTileClick s tx ty vx vy).scale).minX
          (panBoundsAtScale s.canvasW s.canvasH s.viewportW s.viewportH
            (handleTileClick s tx ty vx vy).scale).maxX
          (s.worldOffsetX + (vx - tx) / guardedScale s) ∧
      (handleTileClick s tx ty vx vy).worldOffsetY =
        clampQ
          (panBoundsAtScale s.canvasW s.canvasH s.viewportW s.viewportH
            (handleTileClick s tx ty vx vy).scale).minY
          (panBoundsAtScale s.canvasW s.canvasH s.viewportW s.viewportH
            (handleTileClick s tx ty vx vy).scale).maxY
          (s.worldOffsetY + (vy - ty) / guardedScale s) ∧
      (handleTileClick s tx ty vx vy).incrX = (handleTileClick s tx ty vx vy).worldOffsetX ∧
      (handleTileClick s tx ty vx vy).incrY = (handleTileClick s tx ty vx vy).worldOffsetY) ∧
    ((handleTileClick fixtureState 600 500 500 400).worldOffsetX =
        fixtureState.worldOffsetX + (-100) ∧
      (handleTileClick fixtureState 600 500 500 400).worldOffsetY =
        fixtureState.worldOffsetY + (-100)) := by
  constructor
  · intro s tx ty vx vy h hb
    rw [handleTileClick_eq _ _ _ _ _ h]
    refine ⟨?_, ?_, rfl, rfl⟩ <;>
      simp only [panBoundsAtScale] <;> rw [← hb]
  · have h := handleTileClick_eq fixtureState 600 500 500 400 (by simp [fixtureState])
    rw [h]
    constructor <;>
      norm_num [fixtureState, clampQ, guardedScale, panBoundsFormula, CANVAS_ZOOM_MAX]

theorem C4_click_centering_math_witness :
    (handleTileClick fixtureState 600 500 500 400).worldOffsetX =
      clampQ
        (panBoundsAtScale fixtureState.canvasW fixtureState.canvasH
          fixtureState.viewportW fixtureState.viewportH
          (handleTileClick fixtureState 600 500 500 400).scale).minX
        (panBoundsAtScale fixtureState.canvasW fixtureState.canvasH
          fixtureState.viewportW fixtureState.viewportH
          (handleTileClick fixtureState 600 500 500 400).scale).maxX
        (fixtureState.worldOffsetX + (500 - 600) / guardedScale fixtureState) :=
  (C4_click_centering_math.1 fixtureState 600 500 500 400
    (by simp [fixtureState]) rfl).1

/-- C5: clicking the currently active tile while zoomed in clears the active
    tile and resets the scale to the default (and the stage to NONE),
    regardless of any accumulated distances. -/
theorem C5_reclick_zoom_out (s : CanvasState) (k : Nat) (tx ty vx vy : ℚ)
    (h1 : s.isIntroAnimating = false) (h2 : s.activeTile = some k)
    (h3 : s.scale > 1) :
    (handleTileClickWrapper s k tx ty vx vy).activeTile = none ∧
    (handleTileClickWrapper s k tx ty vx vy).scale = CANVAS_ZOOM_DEFAULT ∧
    (handleTileClickWrapper s k tx ty vx vy).zoomStage = 0 ∧
    (handleTileClickWrapper s k tx ty vx vy).moveSinceZoom = 0 := by
  unfold handleTileClickWrapper
  rw [if_neg (by simp [h1]), if_pos ⟨h2, h3⟩]
  unfold zoomOutCanvas
  have hne :
      ¬(({ s with activeTile := none, moveSinceActive := 0 } : CanvasState).scale
        = CANVAS_ZOOM_DEFAULT) :=
    ne_of_gt h3
  rw [if_neg hne]
  exact ⟨rfl, rfl, rfl, rfl⟩

theorem C5_reclick_zoom_out_witness :
    (handleTileClickWrapper
        { fixtureState with
            activeTile := some 2, scale := 3, moveSinceActive := 150, moveSinceZoom := 1999 }
        2 600 500 500 400).activeTile = none ∧
    (handleTileClickWrapper
        { fixtureState with
            activeTile := some 2, scale := 3, moveSinceActive := 150, moveSinceZoom := 1999 }
        2 600 500 500 400).scale = CANVAS_ZOOM_DEFAULT :=
  ⟨(C5_reclick_zoom_out _ 2 600 500 500 400 (by simp [fixtureState]) rfl
      (by norm_num [fixtureState])).1,
    (C5_reclick_zoom_out _ 2 600 500 500 400 (by simp [fixtureState]) rfl
      (by norm_num [fixtureState])).2.1⟩

/-- C10 as stated fails on the code: a click on the currently active tile
    while zoomed in bypasses the drag guard (the re-click branch of
    handleTileClickWrapper runs before handleTileClick's drag check), so a
    click arriving mid-drag with 15 px accumulated still changes the scale. -/
theorem C10_counterexample :
    (handleTileClickWrapper
        { fixtureState with
            isDragging := true, dragDistance := 15, activeTile := some 3, scale := 3 }
        3 600 500 500 400).scale ≠
      ({ fixtureState with
          isDragging := true, dragDistance := 15, activeTile := some 3, scale := 3 } :
        CanvasState).scale := by
  unfold handleTileClickWrapper
  rw [if_neg (by simp [fixtureState]), if_pos ⟨rfl, by norm_num⟩]
  unfold zoomOutCanvas
  rw [if_neg (by norm_num [CANVAS_ZOOM_DEFAULT])]
  norm_num [CANVAS_ZOOM_DEFAULT]

/-- C10 amended: a tile click arriving while a drag is flagged with at least
    10 px accumulated performs no pan and no zoom, provided the clicked tile
    is not the currently active tile with scale above 1 (in that excluded
    case the re-click zoom-out still fires); the world offset, incremental
    targets, scale, staged-zoom accumulator and stage are all unchanged. -/
theorem C10_drag_guard_amended (s : CanvasState) (k : Nat) (tx ty vx vy : ℚ)
    (hd : s.isDragging = true) (hdist : s.dragDistance ≥ 10)
    (hnot : ¬(s.activeTile = some k ∧ s.scale > 1)) :
    (handleTileClickWrapper s k tx ty vx vy).worldOffsetX = s.worldOffsetX ∧
    (handleTileClickWrapper s k tx ty vx vy).worldOffsetY = s.worldOffsetY ∧
    (handleTileClickWrapper s k tx ty vx vy).incrX = s.incrX ∧
    (handleTileClickWrapper s k tx ty vx vy).incrY = s.incrY ∧
    (handleTileClickWrapper s k tx ty vx vy).scale = s.scale ∧
    (handleTileClickWrapper s k tx ty vx vy).moveSinceZoom = s.moveSinceZoom ∧
    (handleTileClickWrapper s k tx ty vx vy).zoomStage = s.zoomStage := by
  unfold handleTileClickWrapper
  by_cases hIntro : s.isIntroAnimating = true
  · rw [if_pos hIntro]
    exact ⟨rfl, rfl, rfl, rfl, rfl, rfl, rfl⟩
  · rw [if_neg hIntro, if_neg hnot]
    unfold handleTileClick
    have hpos :
        (({ s with activeTile := some k, moveSinceActive := 0 } : CanvasState).isDragging
            = true ∧
          ({ s with activeTile := some k, moveSinceActive := 0 } :
            CanvasState).dragDistance ≥ 10) :=
      ⟨hd, hdist⟩
    rw [if_pos hpos]
    exact ⟨rfl, rfl, rfl, rfl, rfl, rfl, rfl⟩

theorem C10_drag_guard_amended_witness :
    (handleTileClickWrapper
        { fixtureState with isDragging := true, dragDistance := 12 }
        1 600 500 500 400).scale =
      ({ fixtureState with isDragging := true, dragDistance := 12 } : CanvasState).scale ∧
    (handleTileClickWrapper
        { fixtureState with isDragging := true, dragDistance := 12 }
        1 600 500 500 400).worldOffsetX =
      ({ fixtureState with isDragging := true, dragDistance := 12 } : CanvasState).worldOffsetX := by
  have h := C10_drag_guard_amended
    { fixtureState with isDragging := true, dragDistance := 12 } 1 600 500 500 400
    rfl (by norm_num [fixtureState]) (by simp [fixtureState])
  exact ⟨h.2.2.2.2.1, h.1⟩

/-- C6 as stated fails on the code: with an empty item list numberOfImages
    is 0 (the 100-tile minimum is applied only when at least one project
    exists), so no placeholder descriptors are produced at all. -/
theorem C6_counterexample : ¬ ((buildTiles []).length = 100) := by
  simp [buildTiles, numberOfImages, placeholderTiles]

/-- C6 amended: building tiles from an empty item list produces 0
    descriptors; the placeholder generator, for any requested count n,
    produces descriptors with sequential indices whose aspect ratios cycle
    through the 4-entry sequence by index mod 4, with the generic
    Photography category and no media reference. -/
theorem C6_placeholder_amended :
    buildTiles [] = [] ∧
    (∀ n : Nat, (placeholderTiles n).length = n) ∧
    (∀ n i : Nat, i < n →
      (placeholderTiles n).getD i defaultTile =
        { index := i, category := FilterCategory.Photography,
          aspectRatio := ASPECT_RATIOS.getD (i % ASPECT_RATIOS.length) "1 / 1",
          project := none, aspectPadding := none, widthFactor := 1 }) := by
  refine ⟨rfl, ?_, ?_⟩
  · intro n
    simp [placeholderTiles]
  · intro n i h
    have hlen : i < (placeholderTiles n).length := by
      simpa [placeholderTiles] using h
    rw [List.getD_eq_getElem _ _ hlen]
    simp [placeholderTiles]

theorem C6_placeholder_amended_witness :
    ((placeholderTiles 100).getD 5 defaultTile).aspectRatio = "4 / 5" := by
  rw [C6_placeholder_amended.2.2 100 5 (by norm_num)]
  rfl

/-- C7: tile building is a pure function of the item list (the device class
    does not enter the computation at all): identical inputs give identical
    descriptor arrays, with exactly numberOfImages entries carrying the
    sequential indices 0..N-1. -/
theorem C7_buildTiles_deterministic :
    (∀ projects : List Project, buildTiles projects = buildTiles projects) ∧
    (∀ projects : List Project, (buildTiles projects).length = numberOfImages projects) ∧
    (∀ (projects : List Project) (i : Nat), i < (buildTiles projects).length →
      ((buildTiles projects).getD i defaultTile).index = i) := by
  refine ⟨fun _ => rfl, ?_, ?_⟩
  · intro projects
    unfold buildTiles
    split
    · simp
    · simp [placeholderTiles]
  · intro projects i
    unfold buildTiles
    split <;> intro h
    · rw [List.getD_eq_getElem _ _ h]
      simp
    · rw [List.getD_eq_getElem _ _ h]
      simp [placeholderTiles]

theorem C7_buildTiles_deterministic_witness :
    buildTiles [sampleProject] = buildTiles [sampleProject] ∧
    (buildTiles [sampleProject]).length = numberOfImages [sampleProject] ∧
    ((buildTiles [sampleProject]).getD 5 defaultTile).index = 5 := by
  refine ⟨C7_buildTiles_deterministic.1 [sampleProject],
    C7_buildTiles_deterministic.2.1 [sampleProject],
    C7_buildTiles_deterministic.2.2 [sampleProject] 5 ?_⟩
  rw [C7_buildTiles_deterministic.2.1 [sampleProject]]
  norm_num [numberOfImages, MIN_PROJECTS_FOR_CANVAS]

end InfiniteCanvas
